import Mathlib

/-!
Shallow embedding of `src/main.py` (a Streamlit news-insights app).

The program has three parts: a news fetcher (`fetch_news`, one HTTP POST to a
search API), two text generators (`research_news`, `generate_tweet_analysis`,
one model call each with a catch-all fallback), and a presentation loop
(`main`) that validates the topic, fetches, and renders every article in
order.  `create_crew` builds agent/task data but is never called by `main`.

The embedding makes the two external effects explicit inputs: the outcome of
the one search request (`FetchOutcome`) and the behaviour of the generative
model as a function from prompt text to outcome (`GenOutcome`).  All
user-visible output (Streamlit calls) and every outbound network call are
recorded as an `Event` trace, so rendering and call order are provable facts
about lists.  Python exceptions are modelled with `Except PyErr`; a handler
that catches everything corresponds to a total Lean function.

Modelling notes (deliberate simplifications that no theorem depends on):
JSON numbers are `Int` (floats do not occur in the claims); the textual
rendering of nested containers in f-strings follows the shape of Python
repr but does not escape quotes inside strings; `String.trim` stands for
Python `str.strip()` (both drop surrounding whitespace).
-/

/-- JSON values, as produced by `response.json()` in `fetch_news`.  Objects
keep their key/value pairs in insertion order. -/
inductive Json where
  | null : Json
  | bool (b : Bool) : Json
  | num (n : Int) : Json
  | str (s : String) : Json
  | arr (elems : List Json) : Json
  | obj (fields : List (String × Json)) : Json

/-- Single-quote character, used by the Python textual forms below. -/
def sglQuote : String := String.singleton (Char.ofNat 39)

/-- Python type name of a JSON value, as it appears in interpreter error
messages such as attribute errors. -/
def pyTypeName : Json → String
  | .null => "NoneType"
  | .bool _ => "bool"
  | .num _ => "int"
  | .str _ => "str"
  | .arr _ => "list"
  | .obj _ => "dict"

mutual

/-- Python `repr` of a JSON value (shape only; quote escaping inside nested
strings is not modelled). -/
def pyRepr : Json → String
  | .null => "None"
  | .bool true => "True"
  | .bool false => "False"
  | .num n => toString n
  | .str s => sglQuote ++ s ++ sglQuote
  | .arr es => "[" ++ String.intercalate ", " (pyReprList es) ++ "]"
  | .obj fs => "\x7b" ++ String.intercalate ", " (pyReprFields fs) ++ "\x7d"

/-- The reprs of the elements of a JSON array. -/
def pyReprList : List Json → List String
  | [] => []
  | e :: rest => pyRepr e :: pyReprList rest

/-- The `key: value` reprs of the fields of a JSON object. -/
def pyReprFields : List (String × Json) → List String
  | [] => []
  | (k, v) :: rest => (sglQuote ++ k ++ sglQuote ++ ": " ++ pyRepr v) :: pyReprFields rest

end

/-- Python `str()` of a JSON value, as interpolated by an f-string:
a string interpolates as itself, everything else via its repr. -/
def pyStr : Json → String
  | .str s => s
  | v => pyRepr v

/-- Lookup in a JSON object, with Python dict semantics: a later duplicate
key overwrites an earlier one (as `json.loads` builds the dict). -/
def dictGet (fs : List (String × Json)) (k : String) : Option Json :=
  fs.foldl (fun acc kv => if kv.1 = k then some kv.2 else acc) none

/-- Python exceptions that the embedded code can raise past `fetch_news`:
`AttributeError` (calling `.get` on a non-dict) and `TypeError` (iterating a
non-iterable).  The payload is the data of the interpreter message. -/
inductive PyErr where
  | attributeError (tyName : String) (attr : String) : PyErr
  | typeError (tyName : String) : PyErr

/-- The message `str(e)` of an embedded Python exception. -/
def pyErrStr : PyErr → String
  | .attributeError ty attr =>
      sglQuote ++ ty ++ sglQuote ++ " object has no attribute " ++ sglQuote ++ attr ++ sglQuote
  | .typeError ty => sglQuote ++ ty ++ sglQuote ++ " object is not iterable"

/-- One normalized article record, as built by `fetch_news`
(src/main.py:50-55).  The values of `item.get(...)` are arbitrary JSON,
defaulting to the empty string. -/
structure Article where
  title : Json
  snippet : Json
  link : Json

/-- Outcome of the single `requests.post` to the search API.  `netFail`
covers every `requests.RequestException` (connection error, non-2xx via
`raise_for_status`, malformed JSON body) with its message; `success` carries
the parsed JSON body. -/
inductive FetchOutcome where
  | netFail (msg : String) : FetchOutcome
  | success (body : Json) : FetchOutcome

/-- Outcome of one `model.generate_content(prompt)` call together with the
`.text` access: either the raw response text, or an exception message. -/
inductive GenOutcome where
  | ok (text : String) : GenOutcome
  | fail (msg : String) : GenOutcome

/-- The external world of one topic submission: the search response and the
generative model, the latter as a function of the prompt. -/
structure Env where
  fetch : FetchOutcome
  gen : String → GenOutcome

/-- Observable events of one submission: the two kinds of outbound network
call, and every Streamlit output call that `main` and its helpers make. -/
inductive Event where
  | searchCall (topic : String) : Event
  | genCall (prompt : String) : Event
  | error (msg : String) : Event
  | warning (msg : String) : Event
  | markdown (s : String) : Event
  | write (s : String) : Event
  | subheader (s : String) : Event
  | divider : Event
deriving DecidableEq

/-- Python `value.get(k, default)`: on a dict, lookup with default; on any
other value, `AttributeError` (src/main.py:50-54 relies on each item being a
dict). -/
def pyGetDefault (v : Json) (k : String) (dflt : Json) : Except PyErr Json :=
  match v with
  | .obj fs => .ok ((dictGet fs k).getD dflt)
  | _ => .error (.attributeError (pyTypeName v) "get")

/-- Python `for item in v`: a list yields its elements, a string its
characters (as one-character strings), a dict its keys; other values raise
`TypeError` (src/main.py:50). -/
def pyIter (v : Json) : Except PyErr (List Json) :=
  match v with
  | .arr es => .ok es
  | .str s => .ok (s.data.map (fun c => Json.str (String.singleton c)))
  | .obj fs => .ok (fs.map (fun kv => Json.str kv.1))
  | _ => .error (.typeError (pyTypeName v))

/-- One iteration of the extraction loop of `fetch_news`
(src/main.py:51-55): take `title`, `snippet`, `link` with empty-string
defaults. -/
def extractArticle (item : Json) : Except PyErr Article := do
  let t ← pyGetDefault item "title" (Json.str "")
  let s ← pyGetDefault item "snippet" (Json.str "")
  let l ← pyGetDefault item "link" (Json.str "")
  .ok { title := t, snippet := s, link := l }

/-- The whole extraction loop of `fetch_news` (src/main.py:49-55): build one
record per item, stopping with the exception of the first bad item. -/
def extractAll : List Json → Except PyErr (List Article)
  | [] => .ok []
  | item :: rest => do
    let a ← extractArticle item
    let as ← extractAll rest
    .ok (a :: as)

/-- Embedding of `fetch_news` (src/main.py:29-61).  The request itself is
recorded as a `searchCall` event.  A `requests.RequestException` is caught:
the error is shown and the empty list returned.  Any other exception during
extraction propagates to the caller as `Except.error`. -/
def fetch_news (topic : String) (outcome : FetchOutcome) :
    List Event × Except PyErr (List Article) :=
  match outcome with
  | .netFail msg =>
      ([Event.searchCall topic, Event.error ("News Fetch Error: " ++ msg)], .ok [])
  | .success body =>
      match (do
          let v ← pyGetDefault body "news" (Json.arr [])
          let items ← pyIter v
          extractAll items) with
      | .ok arts => ([Event.searchCall topic], .ok arts)
      | .error e => ([Event.searchCall topic], .error e)

/-- The research prompt f-string of `research_news` (src/main.py:74-82),
with its exact literal text and indentation. -/
def research_prompt (topic : String) : String :=
  "Conduct a comprehensive research analysis on the topic: " ++ topic ++
  "\n    \n    Research Objectives:\n    - Identify key themes and underlying narratives\n    - Provide context and historical background\n    - Highlight potential implications\n    - Maintain an objective, analytical approach\n    \n    Deliver a well-structured research summary."

/-- The tweet prompt f-string of `generate_tweet_analysis`
(src/main.py:96-107), with its exact literal text. -/
def tweet_prompt (news_item : Article) : String :=
  "Create a professional, insightful social media post based on:\n\nNews Context:\nTitle: " ++
  pyStr news_item.title ++ "\nSnippet: " ++ pyStr news_item.snippet ++
  "\n\nGuidelines:\n- Craft a nuanced, professional insight\n- Maintain objectivity\n- Aim for 280-300 characters\n- Provoke thoughtful reflection\n- Include a subtle, relevant hashtag"

/-- Embedding of `research_news` (src/main.py:69-89): one model call; on
success the stripped text, on any exception an error report and the
deterministic fallback string. -/
def research_news (env : Env) (topic : String) : List Event × String :=
  match env.gen (research_prompt topic) with
  | .ok text => ([Event.genCall (research_prompt topic)], text.trim)
  | .fail e =>
      ([Event.genCall (research_prompt topic),
        Event.error ("Research Generation Error: " ++ e)],
       "Comprehensive research on " ++ topic ++ " could not be generated.")

/-- Embedding of `generate_tweet_analysis` (src/main.py:91-114): one model
call; on success the stripped text, on any exception an error report and the
deterministic fallback string. -/
def generate_tweet_analysis (env : Env) (news_item : Article) : List Event × String :=
  match env.gen (tweet_prompt news_item) with
  | .ok text => ([Event.genCall (tweet_prompt news_item)], text.trim)
  | .fail e =>
      ([Event.genCall (tweet_prompt news_item),
        Event.error ("Tweet Generation Error: " ++ e)],
       "Insight on " ++ pyStr news_item.title ++ ": A nuanced perspective on recent developments.")

/-- One CrewAI agent as configured in `create_crew` (src/main.py:121-137). -/
structure AgentR where
  role : String
  goal : String
  backstory : String
  verbose : Bool

/-- One CrewAI task as configured in `create_crew` (src/main.py:143-154);
the agent is identified by its role string. -/
structure TaskR where
  description : String
  agentRole : String
  expected_output : String

/-- The crew object built by `create_crew` (src/main.py:159-164). -/
structure CrewR where
  agents : List AgentR
  tasks : List TaskR
  verbose : Bool
  sequentialProcess : Bool

/-- The researcher agent literal of `create_crew` (src/main.py:121-128). -/
def news_researcher : AgentR :=
  { role := "Senior News Researcher"
    goal := "Conduct comprehensive research on current news topics"
    backstory := "An experienced investigative journalist with a PhD in Media Studies, \n        known for providing deep, nuanced analysis of complex global events. \n        Committed to uncovering the broader context behind headlines."
    verbose := true }

/-- The strategist agent literal of `create_crew` (src/main.py:130-137). -/
def tweet_strategist : AgentR :=
  { role := "Social Media Insights Strategist"
    goal := "Transform complex news into concise, thought-provoking social media content"
    backstory := "A communication expert with a background in journalism and \n        digital media strategy. Specializes in distilling complex information \n        into engaging, professional social media narratives."
    verbose := true }

/-- Embedding of `create_crew` (src/main.py:116-166): two agents and, per
article in order, a research task then a tweet task.  The function only
builds this data; `main` never calls it. -/
def create_crew (_topic : String) (news_articles : List Article) : CrewR :=
  { agents := [news_researcher, tweet_strategist]
    tasks := news_articles.foldr (fun article acc =>
      { description := "Conduct an in-depth research analysis on: " ++ pyStr article.title
        agentRole := news_researcher.role
        expected_output := "A comprehensive research summary providing context and insights" } ::
      { description := "Generate a professional tweet for: " ++ pyStr article.title
        agentRole := tweet_strategist.role
        expected_output := "A professional, nuanced social media insight" } :: acc) []
    verbose := true
    sequentialProcess := true }

/-- Twenty spaces: the indentation inside the article-details f-string of
`main` (src/main.py:225-230). -/
def twentySp : String := "                    "

/-- The article-details markdown block of `main` (src/main.py:225-230), with
the exact whitespace of the triple-quoted f-string. -/
def articleBlockMd (idx : Nat) (article : Article) : String :=
  "\n" ++ twentySp ++ "**Article " ++ toString idx ++ ":**\n" ++ twentySp ++
  "- **Title:** " ++ pyStr article.title ++ "\n" ++ twentySp ++
  "- **Snippet:** " ++ pyStr article.snippet ++ "\n" ++ twentySp ++
  "- **Source Link:** " ++ pyStr article.link ++ "\n" ++ twentySp

/-- The leading text every article-details block starts with, and no other
rendered string does: newline, the 20-space indentation, and the literal
article header opening. -/
def blockMark : String := "\n" ++ twentySp ++ "**Article "

/-- One iteration of the display loop of `main` (src/main.py:223-240):
details block, the two generation calls, then the research context and
insight displays and a divider. -/
def renderOne (env : Env) (idx : Nat) (article : Article) : List Event :=
  let rres := research_news env (pyStr article.title)
  let tres := generate_tweet_analysis env article
  [Event.markdown (articleBlockMd idx article)] ++ rres.1 ++ tres.1 ++
  [Event.markdown ("**🔬 Research Context " ++ toString idx ++ ":**"),
   Event.write rres.2,
   Event.markdown ("**💡 Insight " ++ toString idx ++ ":** *" ++ tres.2 ++ "*"),
   Event.divider]

/-- The display loop of `main` over `enumerate(news_articles, 1)`
(src/main.py:223-240), articles processed strictly in list order. -/
def renderLoop (env : Env) (idx : Nat) : List Article → List Event
  | [] => []
  | article :: rest => renderOne env idx article ++ renderLoop env (idx + 1) rest

/-- Embedding of the submit handler of `main` (src/main.py:205-243): the
body run when the button is pressed with the entered topic.  Empty topic:
warn and stop before any network call.  Otherwise fetch; an exception
escaping `fetch_news` is caught by the outermost handler and reported as an
unexpected error; an empty article list yields the no-news warning; else the
subheader and the per-article display loop.  The function is total: every
exception of the body is caught, so the process survives the submission. -/
def main_submit (env : Env) (topic : String) : List Event :=
  if topic = "" then [Event.warning "Please enter a news topic."]
  else
    match (fetch_news topic env.fetch).2 with
    | .error e =>
        (fetch_news topic env.fetch).1 ++
        [Event.error ("An unexpected error occurred: " ++ pyErrStr e)]
    | .ok news_articles =>
        if news_articles.isEmpty then
          (fetch_news topic env.fetch).1 ++
          [Event.warning "No news found. Try a different topic."]
        else
          (fetch_news topic env.fetch).1 ++
          Event.subheader "🔍 News Insights" :: renderLoop env 1 news_articles

/-- Boolean test that `p` is a leading segment of `s` (on character lists). -/
def charsLead : List Char → List Char → Bool
  | [], _ => true
  | _ :: _, [] => false
  | c :: cs, d :: ds => c == d && charsLead cs ds

/-- Boolean test that the string `s` starts with the text `p`. -/
def strHasLead (s p : String) : Bool := charsLead p.data s.data

/-- Recognizer of a rendered article-details block: a markdown event whose
text starts with `blockMark`. -/
def isArticleBlockEv : Event → Bool
  | .markdown s => strHasLead s blockMark
  | _ => false

/-- Number of article-details blocks in a trace. -/
def countBlocks (tr : List Event) : Nat := tr.countP isArticleBlockEv

/-- The string `needle` occurs inside the string `hay`. -/
def strHasSub (needle hay : String) : Prop :=
  ∃ l r, hay.data = l ++ needle.data ++ r

/-- One article step as the spec words it (Design Notes: two plain function
calls, research then insight generation, taking explicit parameters, with
the rendered block around them); used to state that the crew abstraction is
behaviourally absent. -/
def specArticleStep (env : Env) (idx : Nat) (article : Article) : List Event :=
  let researchCtx := research_news env (pyStr article.title)
  let insightRes := generate_tweet_analysis env article
  Event.markdown (articleBlockMd idx article) ::
    (researchCtx.1 ++ insightRes.1 ++
     [Event.markdown ("**🔬 Research Context " ++ toString idx ++ ":**"),
      Event.write researchCtx.2,
      Event.markdown ("**💡 Insight " ++ toString idx ++ ":** *" ++ insightRes.2 ++ "*"),
      Event.divider])

/-- The whole submission as the spec words it (System Overview and Design
Notes): validate, fetch once, then for each article in arrival order the two
plain sequential calls, with no crew object anywhere.  Stated over the
enumerated article list. -/
def specPipeline (env : Env) (topic : String) : List Event :=
  if topic = "" then [Event.warning "Please enter a news topic."]
  else
    match (fetch_news topic env.fetch).2 with
    | .error e =>
        (fetch_news topic env.fetch).1 ++
        [Event.error ("An unexpected error occurred: " ++ pyErrStr e)]
    | .ok news_articles =>
        if news_articles.isEmpty then
          (fetch_news topic env.fetch).1 ++
          [Event.warning "No news found. Try a different topic."]
        else
          (fetch_news topic env.fetch).1 ++
          Event.subheader "🔍 News Insights" ::
          (news_articles.enum.map (fun p => specArticleStep env (p.1 + 1) p.2)).flatten

/-- Sample model behaviour for concrete instantiations: every prompt
succeeds with a fixed text. -/
def wGen : String → GenOutcome := fun _ => GenOutcome.ok " generated text "

/-- Sample search response with two article items, the second missing two
fields. -/
def wBody : Json :=
  Json.obj [("news", Json.arr
    [Json.obj [("title", Json.str "T1"), ("snippet", Json.str "S1"), ("link", Json.str "L1")],
     Json.obj [("title", Json.str "T2")]])]

/-- Sample environment in which the search succeeds with `wBody`. -/
def wEnvOk : Env := { fetch := FetchOutcome.success wBody, gen := wGen }

/-- The articles extracted from `wBody`. -/
def wArts : List Article :=
  [{ title := Json.str "T1", snippet := Json.str "S1", link := Json.str "L1" },
   { title := Json.str "T2", snippet := Json.str "", link := Json.str "" }]

/-- Sample environment in which the search request and every generation
call fail. -/
def wEnvFail : Env := { fetch := FetchOutcome.netFail "boom", gen := fun _ => GenOutcome.fail "boom" }

/-- Sample article with plain string fields. -/
def wArt : Article := { title := Json.str "A", snippet := Json.str "B", link := Json.str "C" }

/-- Sample environment whose search response body is a bare JSON array:
well-formed JSON of an unexpected shape. -/
def wEnvShape : Env := { fetch := FetchOutcome.success (Json.arr []), gen := wGen }

/-- Six object items for a news array: more than the five the request asks
for. -/
def cexItems : List Json :=
  [Json.obj [("title", Json.str "a")], Json.obj [("title", Json.str "b")],
   Json.obj [("title", Json.str "c")], Json.obj [("title", Json.str "d")],
   Json.obj [("title", Json.str "e")], Json.obj [("title", Json.str "f")]]

/-- Search response whose news array is `cexItems`. -/
def cexBody : Json := Json.obj [("news", Json.arr cexItems)]

/-- The six articles extracted from `cexItems`. -/
def cexArts : List Article :=
  [{ title := Json.str "a", snippet := Json.str "", link := Json.str "" },
   { title := Json.str "b", snippet := Json.str "", link := Json.str "" },
   { title := Json.str "c", snippet := Json.str "", link := Json.str "" },
   { title := Json.str "d", snippet := Json.str "", link := Json.str "" },
   { title := Json.str "e", snippet := Json.str "", link := Json.str "" },
   { title := Json.str "f", snippet := Json.str "", link := Json.str "" }]

/-! Helper lemmas about strings, traces and the embedded operations. -/

/-- A character list is a leading segment of itself followed by anything. -/
theorem charsLead_refl_append (p rest : List Char) : charsLead p (p ++ rest) = true := by
  induction p with
  | nil => rfl
  | cons c cs ih => simp [charsLead, ih]

/-- Two lists that start with different characters: no leading-segment
relation. -/
theorem charsLead_head_ne (c d : Char) (cs ds : List Char) (h : c ≠ d) :
    charsLead (c :: cs) (d :: ds) = false := by
  simp [charsLead, h]

/-- The data of `blockMark` in cons form. -/
theorem blockMark_data :
    blockMark.data = Char.ofNat 10 :: (twentySp.data ++ ("**Article " : String).data) := by
  rw [blockMark, String.data_append, String.data_append]
  rfl

/-- Every article-details block starts with `blockMark`. -/
theorem articleBlock_lead (idx : Nat) (article : Article) :
    strHasLead (articleBlockMd idx article) blockMark = true := by
  have h : (articleBlockMd idx article).data =
      blockMark.data ++
        ((toString idx).data ++ ((":**\n" : String).data ++ (twentySp.data ++
         (("- **Title:** " : String).data ++ ((pyStr article.title).data ++
         (("\n" : String).data ++ (twentySp.data ++
         (("- **Snippet:** " : String).data ++ ((pyStr article.snippet).data ++
         (("\n" : String).data ++ (twentySp.data ++
         (("- **Source Link:** " : String).data ++ ((pyStr article.link).data ++
         (("\n" : String).data ++ twentySp.data)))))))))))))) := by
    simp [articleBlockMd, blockMark, String.data_append]
  unfold strHasLead
  rw [h]
  exact charsLead_refl_append _ _

/-- A string whose data starts with a character other than a newline does
not start with `blockMark`. -/
theorem not_lead_of_head (s : String) (c : Char) (cs : List Char)
    (hs : s.data = c :: cs) (hc : Char.ofNat 10 ≠ c) :
    strHasLead s blockMark = false := by
  unfold strHasLead
  rw [blockMark_data, hs]
  exact charsLead_head_ne _ _ _ _ hc

/-- The research-context header markdown is not an article-details block. -/
theorem researchHeader_not_lead (idx : Nat) :
    strHasLead ("**🔬 Research Context " ++ toString idx ++ ":**") blockMark = false := by
  apply not_lead_of_head _ (Char.ofNat 42)
      ((("*🔬 Research Context " : String).data ++ (toString idx).data) ++ ((":**" : String).data))
  · rw [String.data_append, String.data_append]
    rfl
  · decide

/-- The insight markdown is not an article-details block. -/
theorem insightMd_not_lead (idx : Nat) (t : String) :
    strHasLead ("**💡 Insight " ++ toString idx ++ ":** *" ++ t ++ "*") blockMark = false := by
  apply not_lead_of_head _ (Char.ofNat 42)
      (((((("*💡 Insight " : String).data ++ (toString idx).data) ++ ((":** *" : String).data)) ++ t.data) ++ (("*" : String).data)))
  · rw [String.data_append, String.data_append, String.data_append, String.data_append]
    rfl
  · decide

/-- Block counting distributes over trace concatenation. -/
theorem countBlocks_append (l₁ l₂ : List Event) :
    countBlocks (l₁ ++ l₂) = countBlocks l₁ + countBlocks l₂ :=
  List.countP_append _ _ _

/-- One loop iteration renders exactly one article-details block. -/
theorem countBlocks_renderOne (env : Env) (idx : Nat) (article : Article) :
    countBlocks (renderOne env idx article) = 1 := by
  unfold renderOne countBlocks
  rcases hr : env.gen (research_prompt (pyStr article.title)) with t | e <;>
    rcases hw : env.gen (tweet_prompt article) with t2 | e2 <;>
      simp [research_news, generate_tweet_analysis, hr, hw, isArticleBlockEv,
            articleBlock_lead, researchHeader_not_lead, insightMd_not_lead,
            List.countP_cons, List.countP_append]

/-- The display loop renders exactly one block per article. -/
theorem countBlocks_renderLoop (env : Env) (as : List Article) :
    ∀ i, countBlocks (renderLoop env i as) = as.length := by
  induction as with
  | nil => intro i; rfl
  | cons a rest ih =>
      intro i
      simp [renderLoop, countBlocks_append, countBlocks_renderOne, ih]
      omega

/-- On a successful response, the fetcher records only the search call. -/
theorem fetch_events_success (topic : String) (body : Json) :
    (fetch_news topic (.success body)).1 = [Event.searchCall topic] := by
  simp only [fetch_news]
  split <;> rfl

/-- The fetcher trace always starts with the search call. -/
theorem fetch_events_head (topic : String) (o : FetchOutcome) :
    ∃ rest, (fetch_news topic o).1 = Event.searchCall topic :: rest := by
  cases o with
  | netFail m => exact ⟨_, rfl⟩
  | success b => exact ⟨[], fetch_events_success topic b⟩

/-- The fetcher trace never contains a warning. -/
theorem fetch_no_warning (topic : String) (o : FetchOutcome) (w : String) :
    Event.warning w ∉ (fetch_news topic o).1 := by
  cases o with
  | netFail m => simp [fetch_news]
  | success b => rw [fetch_events_success]; simp

/-- The fetcher trace contains no article-details block. -/
theorem countBlocks_fetch (topic : String) (o : FetchOutcome) :
    countBlocks (fetch_news topic o).1 = 0 := by
  cases o with
  | netFail m => simp [fetch_news, countBlocks, isArticleBlockEv]
  | success b => rw [fetch_events_success]; simp [countBlocks, isArticleBlockEv]

/-- The display loop never emits a warning. -/
theorem renderLoop_no_warning (env : Env) (as : List Article) (w : String) :
    ∀ i, Event.warning w ∉ renderLoop env i as := by
  induction as with
  | nil => intro i; simp [renderLoop]
  | cons a rest ih =>
      intro i
      unfold renderLoop renderOne
      rcases hr : env.gen (research_prompt (pyStr a.title)) with t | e <;>
        rcases hw : env.gen (tweet_prompt a) with t2 | e2 <;>
          simp [research_news, generate_tweet_analysis, hr, hw, ih i.succ]

/-- Unfolding of `main_submit` when the fetch hands back a nonempty list. -/
theorem main_submit_if_ok (env : Env) (topic : String) (a : Article) (rest : List Article)
    (ht : topic ≠ "") (hf : (fetch_news topic env.fetch).2 = .ok (a :: rest)) :
    main_submit env topic =
      (fetch_news topic env.fetch).1 ++
      Event.subheader "🔍 News Insights" :: renderLoop env 1 (a :: rest) := by
  unfold main_submit
  rw [if_neg ht, hf]
  simp [List.isEmpty_cons]

/-- Unfolding of `main_submit` when the fetch hands back the empty list. -/
theorem main_submit_if_empty (env : Env) (topic : String)
    (ht : topic ≠ "") (hf : (fetch_news topic env.fetch).2 = .ok []) :
    main_submit env topic =
      (fetch_news topic env.fetch).1 ++
      [Event.warning "No news found. Try a different topic."] := by
  unfold main_submit
  rw [if_neg ht, hf]
  rfl

/-- Unfolding of `main_submit` when an exception escapes the fetcher. -/
theorem main_submit_if_err (env : Env) (topic : String) (e : PyErr)
    (ht : topic ≠ "") (hf : (fetch_news topic env.fetch).2 = .error e) :
    main_submit env topic =
      (fetch_news topic env.fetch).1 ++
      [Event.error ("An unexpected error occurred: " ++ pyErrStr e)] := by
  unfold main_submit
  rw [if_neg ht, hf]

/-- The display loop over a concatenation splits into two runs, the second
starting at the shifted index. -/
theorem renderLoop_split (env : Env) (xs ys : List Article) :
    ∀ i, renderLoop env i (xs ++ ys) = renderLoop env i xs ++ renderLoop env (i + xs.length) ys := by
  induction xs with
  | nil => intro i; simp [renderLoop]
  | cons a rest ih =>
      intro i
      have harith : i + 1 + rest.length = i + (rest.length + 1) := by omega
      simp [renderLoop, ih (i + 1), harith]

/-- One spec-side article step is exactly one loop iteration of `main`. -/
theorem specStep_eq_renderOne (env : Env) (idx : Nat) (article : Article) :
    specArticleStep env idx article = renderOne env idx article := by
  simp [specArticleStep, renderOne]

/-- The spec-side enumerate-map-flatten loop is the display loop of `main`. -/
theorem specLoop_eq_renderLoop (env : Env) (as : List Article) :
    ∀ i, ((as.enumFrom i).map (fun p => specArticleStep env (p.1 + 1) p.2)).flatten =
      renderLoop env (i + 1) as := by
  induction as with
  | nil => intro i; simp [renderLoop]
  | cons a rest ih =>
      intro i
      have ih2 := ih (i + 1)
      simp only [specStep_eq_renderOne] at ih2 ⊢
      simp [List.enumFrom, renderLoop, ih2]

/-- A three-part concatenation whose first part is a nonempty string is a
nonempty string. -/
theorem str_app3_ne_empty (a b c : String) (ha : a.data ≠ []) : a ++ b ++ c ≠ "" := by
  intro he
  apply ha
  have h2 := congrArg String.data he
  rw [String.data_append, String.data_append] at h2
  have h0 : ("" : String).data = [] := rfl
  rw [h0] at h2
  exact ((List.append_eq_nil.mp ((List.append_eq_nil.mp h2).1)).1)

/-- The middle part of a three-part concatenation occurs in it. -/
theorem strHasSub_mid (a mid c : String) : strHasSub mid (a ++ mid ++ c) := by
  refine ⟨a.data, c.data, ?_⟩
  rw [String.data_append, String.data_append]

/-- Two concatenations whose left parts start with different characters are
different strings. -/
theorem append_ne_of_head (a b s t : String) (c d : Char) (ca cb : List Char)
    (ha : a.data = c :: ca) (hb : b.data = d :: cb) (hcd : c ≠ d) : a ++ s ≠ b ++ t := by
  intro he
  have h2 := congrArg String.data he
  rw [String.data_append, String.data_append, ha, hb] at h2
  simp only [List.cons_append] at h2
  exact hcd (List.head_eq_of_cons_eq h2)

/-- Extraction of a JSON object item always succeeds, with the three
defaulted field lookups. -/
theorem extractArticle_obj (gs : List (String × Json)) :
    extractArticle (.obj gs) = .ok
      { title := (dictGet gs "title").getD (Json.str "")
        snippet := (dictGet gs "snippet").getD (Json.str "")
        link := (dictGet gs "link").getD (Json.str "") } := rfl

/-- Extraction of a non-object item raises the attribute error of `.get`. -/
theorem extractArticle_not_obj (v : Json) (hv : ∀ gs, v ≠ Json.obj gs) :
    extractArticle v = .error (.attributeError (pyTypeName v) "get") := by
  cases v with
  | obj gs => exact absurd rfl (hv gs)
  | null => rfl
  | bool b => rfl
  | num n => rfl
  | str s => rfl
  | arr es => rfl

/-- Extraction over a list of objects succeeds and is length preserving. -/
theorem extractAll_length (items : List Json) :
    ∀ arts, extractAll items = .ok arts → arts.length = items.length := by
  induction items with
  | nil =>
      intro arts h
      cases h
      rfl
  | cons it rest ih =>
      intro arts h
      unfold extractAll at h
      rcases h1 : extractArticle it with e | a
      · rw [h1] at h; cases h
      · rw [h1] at h
        rcases h2 : extractAll rest with e2 | as
        · rw [h2] at h; cases h
        · rw [h2] at h
          cases h
          simp [ih as h2]

/-- A list containing a non-object item makes the extraction loop raise. -/
theorem extractAll_err_of_bad (items : List Json) (it : Json)
    (hmem : it ∈ items) (hbad : ∀ gs, it ≠ Json.obj gs) :
    ∃ e, extractAll items = .error e := by
  induction items with
  | nil => cases hmem
  | cons a rest ih =>
      rcases List.mem_cons.mp hmem with heq | htail
      · refine ⟨.attributeError (pyTypeName a) "get", ?_⟩
        unfold extractAll
        rw [extractArticle_not_obj a (fun gs => heq ▸ hbad gs)]
        rfl
      · rcases h1 : extractArticle a with e | art
        · exact ⟨e, by unfold extractAll; rw [h1]; rfl⟩
        · rcases ih htail with ⟨e2, h2⟩
          exact ⟨e2, by unfold extractAll; rw [h1, h2]; rfl⟩

/-- On a success body that is an object with a news array, the fetch result
is the extraction loop over that array. -/
theorem fetch_success_news (topic : String) (fs : List (String × Json)) (items : List Json)
    (h : dictGet fs "news" = some (Json.arr items)) :
    (fetch_news topic (.success (.obj fs))).2 = extractAll items := by
  have hdo : (do
      let v ← pyGetDefault (Json.obj fs) "news" (Json.arr [])
      let items2 ← pyIter v
      extractAll items2) = extractAll items := by
    simp only [pyGetDefault, h, Option.getD_some]
    rfl
  simp only [fetch_news, hdo]
  rcases hx : extractAll items with e | arts <;> simp [hx]

/-- On a success body that is not an object, the fetch result is the
attribute error of calling `.get` on it. -/
theorem fetch_success_not_obj (topic : String) (b : Json) (hb : ∀ fs, b ≠ Json.obj fs) :
    (fetch_news topic (.success b)).2 = .error (.attributeError (pyTypeName b) "get") := by
  have hv : pyGetDefault b "news" (Json.arr []) = .error (.attributeError (pyTypeName b) "get") := by
    cases b <;> first | rfl | exact absurd rfl (hb _)
  have hdo : (do
      let v ← pyGetDefault b "news" (Json.arr [])
      let items2 ← pyIter v
      extractAll items2) = (.error (.attributeError (pyTypeName b) "get") : Except PyErr (List Article)) := by
    rw [hv]
    rfl
  simp only [fetch_news, hdo]

/-- C1: for every submission whose topic passes validation, if the news
fetcher hands back a list of N articles, the presentation loop renders
exactly N article-details blocks; when N = 0 it shows the no-news notice
instead (and renders zero blocks). -/
theorem claimC1_block_count (env : Env) (topic : String) (arts : List Article)
    (ht : topic ≠ "") (hf : (fetch_news topic env.fetch).2 = .ok arts) :
    countBlocks (main_submit env topic) = arts.length
    ∧ (arts = [] →
        Event.warning "No news found. Try a different topic." ∈ main_submit env topic) := by
  rcases arts with _ | ⟨a, rest⟩
  · rw [main_submit_if_empty env topic ht hf]
    constructor
    · rw [countBlocks_append, countBlocks_fetch]
      simp [countBlocks, isArticleBlockEv]
    · intro _
      simp
  · rw [main_submit_if_ok env topic a rest ht hf]
    constructor
    · have h1 : countBlocks (Event.subheader "🔍 News Insights" :: renderLoop env 1 (a :: rest)) =
          countBlocks (renderLoop env 1 (a :: rest)) := by
        simp [countBlocks, List.countP_cons, isArticleBlockEv]
      rw [countBlocks_append, countBlocks_fetch, h1, countBlocks_renderLoop]
      simp
    · intro h
      cases h

/-- C1 witness: in the sample environment with two fetched articles, the
submission renders exactly two article blocks. -/
theorem claimC1_block_count_w : countBlocks (main_submit wEnvOk "ev") = 2 :=
  (claimC1_block_count wEnvOk "ev" wArts (by decide) (by rfl)).1

/-- C3: a network or HTTP failure of the search call is reported on the
error channel and yields the empty article list; it is the only outcome on
which the fetcher reports an error, it does not raise, and the presentation
loop turns the resulting empty list into the no-news notice. -/
theorem claimC3_fetch_failure (env : Env) (topic : String) (msg : String) :
    (∀ o, (∃ m, Event.error m ∈ (fetch_news topic o).1) ↔ ∃ m2, o = FetchOutcome.netFail m2)
    ∧ fetch_news topic (.netFail msg) =
        ([Event.searchCall topic, Event.error ("News Fetch Error: " ++ msg)], Except.ok [])
    ∧ (topic ≠ "" → env.fetch = .netFail msg →
        main_submit env topic =
          [Event.searchCall topic, Event.error ("News Fetch Error: " ++ msg),
           Event.warning "No news found. Try a different topic."]) := by
  refine ⟨?_, rfl, ?_⟩
  · intro o
    cases o with
    | netFail m =>
        constructor
        · intro _
          exact ⟨m, rfl⟩
        · intro _
          exact ⟨"News Fetch Error: " ++ m, by simp [fetch_news]⟩
    | success b =>
        rw [fetch_events_success]
        constructor
        · rintro ⟨m, hm⟩
          simp only [List.mem_singleton] at hm
          exact absurd hm (by simp)
        · rintro ⟨m2, hm⟩
          cases hm
  · intro ht hfe
    have hf : (fetch_news topic env.fetch).2 = .ok [] := by
      rw [hfe]
      rfl
    rw [main_submit_if_empty env topic ht hf, hfe]
    rfl

/-- C3 witness: with a failing search request the sample submission shows
the fetch error and then the no-news notice. -/
theorem claimC3_fetch_failure_w :
    main_submit wEnvFail "t" =
      [Event.searchCall "t", Event.error ("News Fetch Error: " ++ "boom"),
       Event.warning "No news found. Try a different topic."] :=
  (claimC3_fetch_failure wEnvFail "t" "boom").2.2 (by decide) rfl

/-- C5: an item missing any of the title, snippet or link fields still
extracts successfully, the missing fields defaulting to the empty string. -/
theorem claimC5_missing_default (gs : List (String × Json)) :
    ∃ a, extractArticle (Json.obj gs) = .ok a
      ∧ (dictGet gs "title" = none → a.title = Json.str "")
      ∧ (dictGet gs "snippet" = none → a.snippet = Json.str "")
      ∧ (dictGet gs "link" = none → a.link = Json.str "") := by
  refine ⟨_, extractArticle_obj gs, ?_, ?_, ?_⟩ <;> intro h <;> simp [h]

/-- C5 witness: an item carrying only a snippet extracts with empty title
and link. -/
theorem claimC5_missing_default_w :
    ∃ a, extractArticle (Json.obj [("snippet", Json.str "s")]) = .ok a
      ∧ a.title = Json.str "" ∧ a.link = Json.str "" := by
  obtain ⟨a, ha, h1, h2, h3⟩ := claimC5_missing_default [("snippet", Json.str "s")]
  exact ⟨a, ha, h1 rfl, h3 rfl⟩

/-- C7: submitting the empty topic only shows the validation warning: no
search call, no generation call, no article block. -/
theorem claimC7_empty_topic (env : Env) :
    main_submit env "" = [Event.warning "Please enter a news topic."]
    ∧ (∀ t, Event.searchCall t ∉ main_submit env "")
    ∧ (∀ p, Event.genCall p ∉ main_submit env "")
    ∧ countBlocks (main_submit env "") = 0 := by
  have h : main_submit env "" = [Event.warning "Please enter a news topic."] := by
    simp [main_submit]
  refine ⟨h, ?_, ?_, ?_⟩ <;> rw [h] <;> simp [countBlocks, isArticleBlockEv]

/-- C7 witness: the empty submission in the sample environment. -/
theorem claimC7_empty_topic_w :
    main_submit wEnvOk "" = [Event.warning "Please enter a news topic."] :=
  (claimC7_empty_topic wEnvOk).1

/-- C9: validation rejects only the exactly-empty topic: any other string,
whitespace included, reaches the search call and never triggers the
empty-topic warning. -/
theorem claimC9_nonempty_topic (env : Env) (topic : String) (ht : topic ≠ "") :
    Event.searchCall topic ∈ main_submit env topic
    ∧ Event.warning "Please enter a news topic." ∉ main_submit env topic := by
  obtain ⟨tail, hr⟩ := fetch_events_head topic env.fetch
  rcases hf : (fetch_news topic env.fetch).2 with e | arts
  · rw [main_submit_if_err env topic e ht hf]
    constructor
    · rw [hr]
      simp
    · intro hmem
      rcases List.mem_append.mp hmem with h1 | h2
      · exact fetch_no_warning topic env.fetch _ h1
      · simp only [List.mem_singleton] at h2
        exact Event.noConfusion h2
  · rcases arts with _ | ⟨a, rest2⟩
    · rw [main_submit_if_empty env topic ht hf]
      constructor
      · rw [hr]
        simp
      · intro hmem
        rcases List.mem_append.mp hmem with h1 | h2
        · exact fetch_no_warning topic env.fetch _ h1
        · simp only [List.mem_singleton] at h2
          exact absurd h2 (by decide)
    · rw [main_submit_if_ok env topic a rest2 ht hf]
      constructor
      · rw [hr]
        simp
      · intro hmem
        rcases List.mem_append.mp hmem with h1 | h2
        · exact fetch_no_warning topic env.fetch _ h1
        · rcases List.mem_cons.mp h2 with h3 | h4
          · cases h3
          · exact renderLoop_no_warning env (a :: rest2) _ 1 h4

/-- C9 witness: a topic of one space character still reaches the search
call. -/
theorem claimC9_nonempty_topic_w :
    Event.searchCall " " ∈ main_submit wEnvFail " " :=
  (claimC9_nonempty_topic wEnvFail " " (by decide)).1

/-- Unfolding of `main_submit` for any nonempty fetched list. -/
theorem main_submit_if_ne (env : Env) (topic : String) (arts : List Article)
    (ht : topic ≠ "") (hne : arts ≠ [])
    (hf : (fetch_news topic env.fetch).2 = .ok arts) :
    main_submit env topic =
      (fetch_news topic env.fetch).1 ++
      Event.subheader "🔍 News Insights" :: renderLoop env 1 arts := by
  rcases arts with _ | ⟨a, rest⟩
  · exact absurd rfl hne
  · exact main_submit_if_ok env topic a rest ht hf

/-- C2: a failing generation call (research or insight) reports the error
on the error channel and returns the deterministic, non-empty fallback
string containing the article title; both generators are total functions of
the environment, so no generation failure propagates past them. -/
theorem claimC2_generation_fallback (env : Env) (topic : String) (news_item : Article) :
    (∀ e, env.gen (research_prompt topic) = .fail e →
        research_news env topic =
          ([Event.genCall (research_prompt topic),
            Event.error ("Research Generation Error: " ++ e)],
           "Comprehensive research on " ++ topic ++ " could not be generated.")
        ∧ (research_news env topic).2 ≠ ""
        ∧ strHasSub topic (research_news env topic).2)
    ∧ (∀ e, env.gen (tweet_prompt news_item) = .fail e →
        generate_tweet_analysis env news_item =
          ([Event.genCall (tweet_prompt news_item),
            Event.error ("Tweet Generation Error: " ++ e)],
           "Insight on " ++ pyStr news_item.title ++ ": A nuanced perspective on recent developments.")
        ∧ (generate_tweet_analysis env news_item).2 ≠ ""
        ∧ strHasSub (pyStr news_item.title) (generate_tweet_analysis env news_item).2) := by
  constructor
  · intro e he
    have h : research_news env topic =
        ([Event.genCall (research_prompt topic),
          Event.error ("Research Generation Error: " ++ e)],
         "Comprehensive research on " ++ topic ++ " could not be generated.") := by
      simp only [research_news, he]
    refine ⟨h, ?_, ?_⟩
    · rw [h]
      exact str_app3_ne_empty _ _ _ (by decide)
    · rw [h]
      exact strHasSub_mid _ _ _
  · intro e he
    have h : generate_tweet_analysis env news_item =
        ([Event.genCall (tweet_prompt news_item),
          Event.error ("Tweet Generation Error: " ++ e)],
         "Insight on " ++ pyStr news_item.title ++ ": A nuanced perspective on recent developments.") := by
      simp only [generate_tweet_analysis, he]
    refine ⟨h, ?_, ?_⟩
    · rw [h]
      exact str_app3_ne_empty _ _ _ (by decide)
    · rw [h]
      exact strHasSub_mid _ _ _

/-- C2 witness: with every generation call failing, the concrete fallbacks
come out, and the tweet fallback contains the article title. -/
theorem claimC2_generation_fallback_w :
    (research_news wEnvFail "t").2 = "Comprehensive research on t could not be generated."
    ∧ strHasSub "A" (generate_tweet_analysis wEnvFail wArt).2 := by
  have h := claimC2_generation_fallback wEnvFail "t" wArt
  have h1 := h.1 "boom" rfl
  have h2 := h.2 "boom" rfl
  exact ⟨by rw [h1.1]; rfl, h2.2.2⟩

/-- C4 counterexample: a successful response whose news array has six
items makes the fetcher return six records, so the fetched sequence is not
bounded by five. -/
theorem claimC4_cex :
    (fetch_news "tech" (.success cexBody)).2 = .ok cexArts ∧ 5 < cexArts.length :=
  ⟨rfl, by decide⟩

/-- C4 amended: on a successful response carrying a news array, the fetcher
returns exactly one record per array item (no truncation to five; the limit
is only requested of the API), each record built from the item by taking
title, snippet and link with empty-string defaults. -/
theorem claimC4_amended (topic : String) (fs : List (String × Json)) (items : List Json)
    (h : dictGet fs "news" = some (Json.arr items)) :
    (fetch_news topic (.success (.obj fs))).2 = extractAll items
    ∧ (∀ arts, extractAll items = .ok arts → arts.length = items.length)
    ∧ (∀ gs, extractArticle (Json.obj gs) = .ok
        { title := (dictGet gs "title").getD (Json.str "")
          snippet := (dictGet gs "snippet").getD (Json.str "")
          link := (dictGet gs "link").getD (Json.str "") }) :=
  ⟨fetch_success_news topic fs items h, extractAll_length items, fun gs => extractArticle_obj gs⟩

/-- C4 witness: the amended statement instantiated on the six-item
response. -/
theorem claimC4_amended_w :
    (fetch_news "tech" (.success cexBody)).2 = extractAll cexItems
    ∧ (∀ arts, extractAll cexItems = .ok arts → arts.length = cexItems.length) := by
  have h := claimC4_amended "tech" [("news", Json.arr cexItems)] cexItems rfl
  exact ⟨h.1, h.2.1⟩

/-- C6: articles are processed strictly in arrival order with no
parallelism: around any two consecutive fetched articles the whole trace
splits so that the full render of the first (details block, its two
generation calls, its research and insight display) is contiguous and
precedes everything of the second. -/
theorem claimC6_sequential (env : Env) (topic : String) (l₁ l₂ : List Article) (a b : Article)
    (ht : topic ≠ "")
    (hf : (fetch_news topic env.fetch).2 = .ok (l₁ ++ a :: b :: l₂)) :
    ∃ pre post, main_submit env topic =
      pre ++ renderOne env (l₁.length + 1) a ++ renderOne env (l₁.length + 2) b ++ post := by
  have hne : l₁ ++ a :: b :: l₂ ≠ [] := by simp
  rw [main_submit_if_ne env topic _ ht hne hf]
  rw [renderLoop_split env l₁ (a :: b :: l₂) 1]
  have h1 : 1 + l₁.length = l₁.length + 1 := by omega
  have hu : renderLoop env (l₁.length + 1) (a :: b :: l₂) =
      renderOne env (l₁.length + 1) a ++
      (renderOne env (l₁.length + 2) b ++ renderLoop env (l₁.length + 3) l₂) := by
    simp only [renderLoop]
  rw [h1, hu]
  refine ⟨(fetch_news topic env.fetch).1 ++
      Event.subheader "🔍 News Insights" :: renderLoop env 1 l₁,
    renderLoop env (l₁.length + 3) l₂, ?_⟩
  simp [List.append_assoc]

/-- C6 witness: with two fetched articles the trace splits around their two
contiguous renders. -/
theorem claimC6_sequential_w :
    ∃ pre post, main_submit wEnvOk "ev" =
      pre ++ renderOne wEnvOk 1 { title := Json.str "T1", snippet := Json.str "S1", link := Json.str "L1" } ++
      renderOne wEnvOk 2 { title := Json.str "T2", snippet := Json.str "", link := Json.str "" } ++ post :=
  claimC6_sequential wEnvOk "ev" [] [] _ _ (by decide) (by rfl)

/-- C8: the agent/crew abstraction has no observable effect: every
submission trace equals the spec-side plain pipeline of two sequential
calls per article, a definition that never mentions the crew data
`create_crew` builds, so removing `create_crew` (which `main` never calls)
changes no submission. -/
theorem claimC8_crew_inert (env : Env) (topic : String) :
    main_submit env topic = specPipeline env topic := by
  unfold main_submit specPipeline
  by_cases ht : topic = ""
  · rw [if_pos ht, if_pos ht]
  · rw [if_neg ht, if_neg ht]
    rcases hf : (fetch_news topic env.fetch).2 with e | arts
    · rfl
    · rcases arts with _ | ⟨a, rest⟩
      · rfl
      · have h2 := specLoop_eq_renderLoop env (a :: rest) 0
        simp only [List.isEmpty_cons, List.enum]
        rw [h2]

/-- C10: a well-formed search response of unexpected shape (top level not
an object, or some news element not an object) escapes the fetcher, is
caught only by the outermost handler and reported as an unexpected error
rather than a fetch error; zero article blocks are rendered and the
submission still returns a trace (the handler is total). -/
theorem claimC10_shape_error (env : Env) (topic : String) (b : Json)
    (ht : topic ≠ "") (hb : env.fetch = .success b)
    (hshape : (∀ fs, b ≠ Json.obj fs) ∨
      (∃ fs items it, b = Json.obj fs ∧ dictGet fs "news" = some (Json.arr items)
        ∧ it ∈ items ∧ ∀ gs, it ≠ Json.obj gs)) :
    ∃ e, (fetch_news topic env.fetch).2 = .error e
      ∧ main_submit env topic =
          [Event.searchCall topic,
           Event.error ("An unexpected error occurred: " ++ pyErrStr e)]
      ∧ countBlocks (main_submit env topic) = 0
      ∧ ∀ m, Event.error ("News Fetch Error: " ++ m) ∉ main_submit env topic := by
  have hferr : ∃ e, (fetch_news topic env.fetch).2 = .error e := by
    rcases hshape with h1 | ⟨fs, items, it, rfl, hnews, hmem, hbad⟩
    · exact ⟨.attributeError (pyTypeName b) "get",
        by rw [hb]; exact fetch_success_not_obj topic b h1⟩
    · rcases extractAll_err_of_bad items it hmem hbad with ⟨e, he⟩
      exact ⟨e, by rw [hb, fetch_success_news topic fs items hnews, he]⟩
  rcases hferr with ⟨e, he⟩
  have h3 := main_submit_if_err env topic e ht he
  rw [hb, fetch_events_success] at h3
  have h4 : main_submit env topic =
      [Event.searchCall topic,
       Event.error ("An unexpected error occurred: " ++ pyErrStr e)] := by
    rw [h3]
    rfl
  refine ⟨e, he, h4, ?_, ?_⟩
  · rw [h4]
    simp [countBlocks, isArticleBlockEv]
  · intro m hmem
    rw [h4] at hmem
    rcases List.mem_cons.mp hmem with hx | hx
    · exact Event.noConfusion hx
    · simp only [List.mem_singleton, Event.error.injEq] at hx
      exact append_ne_of_head "News Fetch Error: " "An unexpected error occurred: " m
        (pyErrStr e) (Char.ofNat 78) (Char.ofNat 65)
        (("ews Fetch Error: " : String).data) (("n unexpected error occurred: " : String).data)
        rfl rfl (by decide) hx

/-- C10 witness: a bare-array response body is reported as an unexpected
error by the outermost handler. -/
theorem claimC10_shape_error_w :
    ∃ e, (fetch_news "t" wEnvShape.fetch).2 = .error e
      ∧ main_submit wEnvShape "t" =
          [Event.searchCall "t",
           Event.error ("An unexpected error occurred: " ++ pyErrStr e)] := by
  rcases claimC10_shape_error wEnvShape "t" (Json.arr []) (by decide) rfl
      (Or.inl (fun fs h => Json.noConfusion h)) with ⟨e, h1, h2, _, _⟩
  exact ⟨e, h1, h2⟩
